import Mathlib

/-!
Shallow embedding of the CSV policy-upload pipeline of the
`challenge_api_policies` repository (TypeScript), covering:

* `ValidationService` (src/backend/src/services/ValidationService.ts),
* `BusinessRule` / `RuleEngine` and the two concrete rules
  (src/backend/src/rules/*),
* `UploadController.upload` (src/backend/src/controllers/UploadController.ts),
* `OperationService.updateOperation` and `PolicyService.insertPolicy`
  (the services file),

together with theorems checking the natural-language specification
against this embedding.

JavaScript runtime primitives that the code calls out to
(`new Date(...)` parsing, `parseFloat`, `JSON.stringify`) are modelled as
parameters collected in `JsEnv`: the pipeline's branching only depends on
whether a parse succeeds and on the resulting value, never on the textual
details of those primitives.
-/

namespace PolicyUpload

/-- Policy types, from `policy.types.ts` (`PolicyType`). -/
inductive PolicyType
  | Property
  | Auto
  | Life
  | Health
deriving DecidableEq, Repr

/-- Policy statuses, from `policy.types.ts` (`PolicyStatus`). -/
inductive PolicyStatus
  | active
  | expired
  | cancelled
deriving DecidableEq, Repr

/-- A CSV cell value as typed in `PolicyInput`: `string | number`.
Numbers are modelled as rationals (JS floats whose value the pipeline
compares and copies; `NaN` on the string side is modelled by a failing
parse in `JsEnv.parseFloat`). -/
inductive CsvValue
  | str (s : String)
  | num (q : ℚ)
deriving DecidableEq, Repr

/-- Raw CSV row after `csv-parse` with `columns: true`, from
`policy.types.ts` (`PolicyInput`). -/
structure PolicyInput where
  policy_number : String
  customer : String
  policy_type : String
  start_date : String
  end_date : String
  premium_usd : CsvValue
  status : String
  insured_value_usd : CsvValue
deriving DecidableEq, Repr

/-- Typed domain record produced by `ValidationService.parseToPolicy`,
from `policy.types.ts` (`Policy`). Dates are modelled by their numeric
timestamps (JS `Date` comparison compares timestamps). -/
structure Policy where
  policy_number : String
  customer : String
  policy_type : PolicyType
  start_date : ℤ
  end_date : ℤ
  premium_usd : ℚ
  status : PolicyStatus
  insured_value_usd : ℚ
deriving DecidableEq, Repr

/-- Validation error record, from `policy.types.ts` (`ValidationError`).
The `message` field is optional in the interface but the code always
supplies it. -/
structure ValidationError where
  row_number : ℕ
  field : String
  code : String
  message : String
deriving DecidableEq, Repr

/-- External JavaScript runtime primitives used by the pipeline.
`parseDate s = none` models `new Date(s)` yielding an Invalid Date
(`isNaN(d.getTime())`); `some t` models a valid date with timestamp `t`.
`parseFloat s = none` models `parseFloat(s)` yielding `NaN`.
`stringifyErrors` models `JSON.stringify` on an error list. -/
structure JsEnv where
  parseDate : String → Option ℤ
  parseFloat : String → Option ℚ
  stringifyErrors : List ValidationError → String

/-! ## ValidationService -/

/-- Character-list trimming used to model JavaScript
`String.prototype.trim` (drop leading and trailing whitespace). Defined
structurally so that concrete instances evaluate in the kernel. -/
def trimChars (cs : List Char) : List Char :=
  ((cs.dropWhile Char.isWhitespace).reverse.dropWhile Char.isWhitespace).reverse

/-- Model of JavaScript `value.trim()`. -/
def trimString (s : String) : String := ⟨trimChars s.data⟩

/-- Valid statuses, from `VALID_STATUSES` in ValidationService.ts. -/
def VALID_STATUSES : List String := ["active", "expired", "cancelled"]

/-- Valid policy types, from `VALID_POLICY_TYPES` in ValidationService.ts. -/
def VALID_POLICY_TYPES : List String := ["Property", "Auto", "Life", "Health"]

/-- `ValidationService.validateRequiredField`: pushes a `REQUIRED_FIELD`
error when the value is falsy or whitespace-only
(`!value || value.trim() === ''`; the falsy empty string is subsumed by
the trim check). -/
def validateRequiredField (value : String) (fieldName errorMessage : String)
    (rowNumber : ℕ) : List ValidationError :=
  if trimString value = "" then
    [⟨rowNumber, fieldName, "REQUIRED_FIELD", errorMessage⟩]
  else []

/-- `ValidationService.validateDateFields`: each unparseable date yields
`INVALID_DATE_FORMAT`; when both parse and `startDate >= endDate` a single
`INVALID_DATE_RANGE` error on field `start_date` is pushed. Errors are
pushed in source order (start format, end format, range). -/
def validateDateFields (env : JsEnv) (startDateStr endDateStr : String)
    (rowNumber : ℕ) : List ValidationError :=
  (match env.parseDate startDateStr with
    | none => [⟨rowNumber, "start_date", "INVALID_DATE_FORMAT", "Invalid start_date format"⟩]
    | some _ => []) ++
  (match env.parseDate endDateStr with
    | none => [⟨rowNumber, "end_date", "INVALID_DATE_FORMAT", "Invalid end_date format"⟩]
    | some _ => []) ++
  (match env.parseDate startDateStr, env.parseDate endDateStr with
    | some s, some e =>
        if e ≤ s then
          [⟨rowNumber, "start_date", "INVALID_DATE_RANGE", "start_date must be before end_date"⟩]
        else []
    | _, _ => [])

/-- `ValidationService.validateStatusField`: `INVALID_STATUS` when the
status is not a member of `VALID_STATUSES` (exact match). -/
def validateStatusField (status : String) (rowNumber : ℕ) : List ValidationError :=
  if status ∈ VALID_STATUSES then []
  else [⟨rowNumber, "status", "INVALID_STATUS", "status must be one of: active, expired, cancelled"⟩]

/-- `ValidationService.validatePolicyTypeField`: `INVALID_POLICY_TYPE`
when the policy type is not a member of `VALID_POLICY_TYPES`. -/
def validatePolicyTypeField (policyType : String) (rowNumber : ℕ) : List ValidationError :=
  if policyType ∈ VALID_POLICY_TYPES then []
  else [⟨rowNumber, "policy_type", "INVALID_POLICY_TYPE", "policy_type must be one of: Property, Auto, Life, Health"⟩]

/-- Numeric coercion used by `validateNumericField` and `parseToPolicy`:
`typeof value === 'string' ? parseFloat(value) : value`. -/
def numericValue (env : JsEnv) : CsvValue → Option ℚ
  | .str s => env.parseFloat s
  | .num q => some q

/-- `ValidationService.validateNumericField`: `INVALID_NUMBER` when the
coerced value is `NaN` (`none`) or negative. -/
def validateNumericField (env : JsEnv) (value : CsvValue)
    (fieldName errorMessage : String) (rowNumber : ℕ) : List ValidationError :=
  match numericValue env value with
  | none => [⟨rowNumber, fieldName, "INVALID_NUMBER", errorMessage⟩]
  | some q =>
      if q < 0 then [⟨rowNumber, fieldName, "INVALID_NUMBER", errorMessage⟩]
      else []

/-- `ValidationService.validateTechnical`: the seven checks, in source
order, concatenating the errors each pushes. -/
def validateTechnical (env : JsEnv) (input : PolicyInput) (rowNumber : ℕ) :
    List ValidationError :=
  validateRequiredField input.policy_number "policy_number" "policy_number is required" rowNumber ++
  validateRequiredField input.customer "customer" "customer is required" rowNumber ++
  validateDateFields env input.start_date input.end_date rowNumber ++
  validateStatusField input.status rowNumber ++
  validatePolicyTypeField input.policy_type rowNumber ++
  validateNumericField env input.premium_usd "premium_usd" "premium_usd must be a positive number" rowNumber ++
  validateNumericField env input.insured_value_usd "insured_value_usd" "insured_value_usd must be a positive number" rowNumber

/-- Enum cast `input.policy_type as PolicyType`, meaningful exactly on the
members of `VALID_POLICY_TYPES`. -/
def toPolicyType (s : String) : Option PolicyType :=
  if s = "Property" then some .Property
  else if s = "Auto" then some .Auto
  else if s = "Life" then some .Life
  else if s = "Health" then some .Health
  else none

/-- Enum cast `input.status as PolicyStatus`, meaningful exactly on the
members of `VALID_STATUSES`. -/
def toPolicyStatus (s : String) : Option PolicyStatus :=
  if s = "active" then some .active
  else if s = "expired" then some .expired
  else if s = "cancelled" then some .cancelled
  else none

/-- `ValidationService.parseToPolicy`: trims the string fields, parses
the dates, coerces the numeric fields and casts the enum strings. The
TypeScript function is total but documented to assume technically valid
input; the `Option` result models the date/number parses yielding `NaN`
and the enum casts being meaningless on other strings, and
`parseToPolicy_isSome_of_valid` below proves the `none` case cannot occur
for a row that passed `validateTechnical`. -/
def parseToPolicy (env : JsEnv) (input : PolicyInput) : Option Policy :=
  match env.parseDate input.start_date, env.parseDate input.end_date,
        numericValue env input.premium_usd, numericValue env input.insured_value_usd,
        toPolicyType input.policy_type, toPolicyStatus input.status with
  | some sd, some ed, some pr, some iv, some pt, some st =>
      some ⟨trimString input.policy_number, trimString input.customer, pt, sd, ed, pr, st, iv⟩
  | _, _, _, _, _, _ => none

/-! ## BusinessRule and RuleEngine -/

/-- Abstract business rule, from `rules/BusinessRule.ts`: fixed error
code, field and message, plus the `appliesTo` and `validate` strategy
methods implemented by each concrete rule. -/
structure BusinessRule where
  errorCode : String
  field : String
  errorMessage : String
  appliesTo : Policy → Bool
  validate : Policy → Bool

/-- `BusinessRule.execute` (template method): `null` when the rule does
not apply, `null` when validation passes, otherwise the formatted error. -/
def BusinessRule.execute (r : BusinessRule) (policy : Policy) (rowNumber : ℕ) :
    Option ValidationError :=
  if r.appliesTo policy then
    if r.validate policy then none
    else some ⟨rowNumber, r.field, r.errorCode, r.errorMessage⟩
  else none

/-- `PropertyMinInsuredValueRule`: applies to `Property` policies, valid
when `insured_value_usd >= 5000`. -/
def PropertyMinInsuredValueRule : BusinessRule where
  errorCode := "PROPERTY_VALUE_TOO_LOW"
  field := "insured_value_usd"
  errorMessage := "Property policies must have insured value >= $5,000"
  appliesTo := fun policy => policy.policy_type = PolicyType.Property
  validate := fun policy => 5000 ≤ policy.insured_value_usd

/-- `AutoMinInsuredValueRule`: applies to `Auto` policies, valid when
`insured_value_usd >= 10000`. -/
def AutoMinInsuredValueRule : BusinessRule where
  errorCode := "AUTO_VALUE_TOO_LOW"
  field := "insured_value_usd"
  errorMessage := "Auto policies must have insured value >= $10,000"
  appliesTo := fun policy => policy.policy_type = PolicyType.Auto
  validate := fun policy => 10000 ≤ policy.insured_value_usd

/-- `RuleEngine.validate`: runs every registered rule against the policy
in registration order and collects the non-null errors. -/
def ruleEngineValidate (rules : List BusinessRule) (policy : Policy)
    (rowNumber : ℕ) : List ValidationError :=
  rules.filterMap (fun r => r.execute policy rowNumber)

/-- Rules registered by the `RuleEngine` constructor, in source order. -/
def defaultRules : List BusinessRule :=
  [PropertyMinInsuredValueRule, AutoMinInsuredValueRule]

/-! ## OperationService (operation audit record) -/

/-- Mutable columns of a row of the `operations` table, as created by the
migrations (`001` plus `002_add_updated_count.sql`). `none` models SQL
`NULL`; `rows_updated` carries the migration's `DEFAULT 0`. The identity
columns (`id`, `endpoint`, `correlation_id`, `created_at`) play no role
in the claims and are omitted. -/
structure OperationRow where
  status : String
  rows_inserted : Option ℤ
  rows_updated : Option ℤ
  rows_rejected : Option ℤ
  duration_ms : Option ℤ
  error_summary : Option String
deriving DecidableEq, Repr

/-- Operations-table row right after `OperationService.createOperation`:
the `INSERT` sets only `id, endpoint, status, correlation_id`, so every
other column holds its default. -/
def initialOperationRow : OperationRow where
  status := "RECEIVED"
  rows_inserted := none
  rows_updated := some 0
  rows_rejected := none
  duration_ms := none
  error_summary := none

/-- Update payload passed to `OperationService.updateOperation`
(`Partial<Operation>` plus the `rows_updated` and `error_summary` values
the controller supplies). A `none` field is absent from the payload. -/
structure OperationUpdate where
  status : Option String := none
  rows_inserted : Option ℤ := none
  rows_updated : Option ℤ := none
  rows_rejected : Option ℤ := none
  duration_ms : Option ℤ := none
  error_summary : Option (Option String) := none

/-- `OperationService.updateOperation`: builds the SQL `SET` list from
exactly the five fields the source checks — `status`, `rows_inserted`,
`rows_rejected`, `duration_ms`, `error_summary`. The source has no branch
for `rows_updated`, so a `rows_updated` value in the payload is dropped
and the stored column is left unchanged. -/
def updateOperation (row : OperationRow) (u : OperationUpdate) : OperationRow where
  status := u.status.getD row.status
  rows_inserted := (u.rows_inserted.map some).getD row.rows_inserted
  rows_updated := row.rows_updated
  rows_rejected := (u.rows_rejected.map some).getD row.rows_rejected
  duration_ms := (u.duration_ms.map some).getD row.duration_ms
  error_summary := u.error_summary.getD row.error_summary

/-! ## PolicyService (upsert persistence adapter) -/

/-- Upsert persistence contract consumed by the controller
(`PolicyService.insertPolicy`): given the store state and a policy,
returns the `was_updated` flag and the new state. -/
structure UpsertAdapter (DB : Type) where
  insertOrUpdate : DB → Policy → Bool × DB

/-- In-memory model of `PolicyService.insertPolicy`: `INSERT ... ON
CONFLICT (policy_number) DO UPDATE` with full-replace semantics, where
`was_updated` is true exactly when a row with the same `policy_number`
already existed (`xmax = 0` detection). -/
def insertPolicyMem (db : List Policy) (p : Policy) : Bool × List Policy :=
  if db.any (fun q => q.policy_number = p.policy_number) then
    (true, db.map (fun q => if q.policy_number = p.policy_number then p else q))
  else
    (false, db ++ [p])

/-- The in-memory upsert as an adapter. -/
def memAdapter : UpsertAdapter (List Policy) := ⟨insertPolicyMem⟩

/-! ## UploadController.upload -/

/-- Outcome of the per-row body of the controller loop (step 6): either
the row is rejected with the errors appended to the batch list, or its
normalized policy joins `validPolicies`. -/
inductive RowOutcome
  | rejected (errors : List ValidationError)
  | accepted (policy : Policy)
deriving DecidableEq, Repr

/-- Body of the controller's per-row loop: technical validation first
(`continue` on errors, skipping normalization and business validation),
then `parseToPolicy`, then the rule engine (`continue` on errors). The
`parseToPolicy` `none` branch is unreachable for rows that reached it
(they passed technical validation; see `parseToPolicy_isSome_of_valid`). -/
def processRow (env : JsEnv) (rules : List BusinessRule) (record : PolicyInput)
    (rowNumber : ℕ) : RowOutcome :=
  let technicalErrors := validateTechnical env record rowNumber
  if 0 < technicalErrors.length then .rejected technicalErrors
  else
    match parseToPolicy env record with
    | some policy =>
        let businessErrors := ruleEngineValidate rules policy rowNumber
        if 0 < businessErrors.length then .rejected businessErrors
        else .accepted policy
    | none => .rejected []

/-- The controller loop over `records`, starting at 0-based index `i`
(row numbers are `i + 1`): accumulates `allErrors` (in row order, each
row's errors contiguous) and `validPolicies` (policy with its row
number, in row order). -/
def processRowsFrom (env : JsEnv) (rules : List BusinessRule) :
    ℕ → List PolicyInput → List ValidationError × List (Policy × ℕ)
  | _, [] => ([], [])
  | i, record :: rest =>
      let r := processRowsFrom env rules (i + 1) rest
      match processRow env rules record (i + 1) with
      | .rejected es => (es ++ r.1, r.2)
      | .accepted p => (r.1, (p, i + 1) :: r.2)

/-- The controller loop over all records (step 6 of `upload`). -/
def processRows (env : JsEnv) (rules : List BusinessRule)
    (records : List PolicyInput) : List ValidationError × List (Policy × ℕ) :=
  processRowsFrom env rules 0 records

/-- Result of the persistence loop (step 7 of `upload`): the insert and
update counters, the `updatedPolicyNumbers` list, and the store state. -/
structure PersistResult (DB : Type) where
  inserted : ℕ
  updated : ℕ
  updated_policies : List String
  db : DB

/-- Persistence loop (step 7 of `upload`): upserts each valid policy in
order; `was_updated` increments `updatedCount` and pushes the policy
number, otherwise `insertedCount` is incremented. -/
def persistLoop {DB : Type} (ad : UpsertAdapter DB) :
    List (Policy × ℕ) → DB → PersistResult DB
  | [], db => ⟨0, 0, [], db⟩
  | (p, _) :: rest, db =>
      let r0 := ad.insertOrUpdate db p
      let r := persistLoop ad rest r0.2
      if r0.1 then ⟨r.inserted, r.updated + 1, p.policy_number :: r.updated_policies, r.db⟩
      else ⟨r.inserted + 1, r.updated, r.updated_policies, r.db⟩

/-- Trace of the persistence loop: each persisted policy paired with the
`was_updated` flag its upsert reported, in persistence order. Used to
state properties of `persistLoop`. -/
def persistTrace {DB : Type} (ad : UpsertAdapter DB) :
    List (Policy × ℕ) → DB → List (Policy × Bool)
  | [], _ => []
  | (p, _) :: rest, db =>
      let r0 := ad.insertOrUpdate db p
      (p, r0.1) :: persistTrace ad rest r0.2

/-- Response payload of a non-fatal batch (step 10 of `upload`), plus the
HTTP status code chosen in step 11. `rejected_count` is computed with JS
number subtraction, modelled in `ℤ`. -/
structure UploadResponse where
  inserted_count : ℕ
  updated_count : ℕ
  rejected_count : ℤ
  errors : List ValidationError
  updated_policies : List String
  statusCode : ℕ
deriving DecidableEq, Repr

/-- The non-fatal path of `UploadController.upload` after a successful
CSV parse, over an arbitrary upsert adapter and rule list: the
PROCESSING update, the row loop, the persistence loop, the COMPLETED
finalization of the operation record (with `rows_rejected :=
allErrors.length` and the error summary truncated to 50 entries), the
response counts with `rejectedCount = records.length - insertedCount -
updatedCount`, and the three-way status code. Returns the response, the
finalized operation row and the store state. -/
def upload {DB : Type} (env : JsEnv) (ad : UpsertAdapter DB)
    (rules : List BusinessRule) (records : List PolicyInput) (db : DB)
    (duration : ℤ) : UploadResponse × OperationRow × DB :=
  let op1 := updateOperation initialOperationRow { status := some "PROCESSING" }
  let pr := processRows env rules records
  let allErrors := pr.1
  let persisted := persistLoop ad pr.2 db
  let op2 := updateOperation op1
    { status := some "COMPLETED"
      rows_inserted := some persisted.inserted
      rows_updated := some persisted.updated
      rows_rejected := some allErrors.length
      duration_ms := some duration
      error_summary := some (if 0 < allErrors.length
        then some (env.stringifyErrors (allErrors.take 50)) else none) }
  let rejectedCount : ℤ := (records.length : ℤ) - persisted.inserted - persisted.updated
  let statusCode : ℕ :=
    if rejectedCount = 0 then 200
    else if rejectedCount = (records.length : ℤ) then 422
    else 207
  (⟨persisted.inserted, persisted.updated, rejectedCount, allErrors,
    persisted.updated_policies, statusCode⟩, op2, persisted.db)

/-! ## Concrete fixtures (used by witnesses and counterexamples) -/

/-- Concrete instantiation of the JS runtime primitives, recognizing the
date and number literals appearing in the fixtures below (mirroring the
sample rows of the repository's unit tests). -/
def testEnv : JsEnv where
  parseDate := fun s =>
    if s = "2024-01-01" then some 0
    else if s = "2024-12-31" then some 365
    else none
  parseFloat := fun s =>
    if s = "1500" then some 1500
    else if s = "100000" then some 100000
    else if s = "4999" then some 4999
    else none
  stringifyErrors := fun es => toString es.length

/-- A technically and business-valid Property row (the sample row of the
repository's UploadController unit tests). -/
def sampleRecord : PolicyInput where
  policy_number := "POL-001"
  customer := "John Doe"
  policy_type := "Property"
  start_date := "2024-01-01"
  end_date := "2024-12-31"
  premium_usd := .str "1500"
  status := "active"
  insured_value_usd := .str "100000"

/-- A stored policy sharing `sampleRecord`'s policy number, so that
upserting `sampleRecord` reports `was_updated = true`. -/
def existingPolicy : Policy where
  policy_number := "POL-001"
  customer := "Old Customer"
  policy_type := .Property
  start_date := 0
  end_date := 365
  premium_usd := 1000
  status := .active
  insured_value_usd := 50000

/-- A row carrying two technical errors (empty `policy_number` and an
invalid `status`), so one rejected row contributes two entries to the
batch error list. -/
def twoErrorRecord : PolicyInput :=
  { sampleRecord with policy_number := "", status := "bogus" }

/-- Property policy below its minimum, violating exactly one rule. -/
def lowValuePolicy : Policy where
  policy_number := "POL-002"
  customer := "Jane Roe"
  policy_type := .Property
  start_date := 0
  end_date := 365
  premium_usd := 100
  status := .active
  insured_value_usd := 4999

/-- Life policy with a small insured value, demonstrating that no
minimum-value rule applies to Life policies. -/
def lifePolicy : Policy where
  policy_number := "POL-003"
  customer := "Sam Poe"
  policy_type := .Life
  start_date := 0
  end_date := 365
  premium_usd := 50
  status := .active
  insured_value_usd := 100

/-- Error-code strings that `validateTechnical` can produce. -/
def technicalCodes : List String :=
  ["REQUIRED_FIELD", "INVALID_DATE_FORMAT", "INVALID_DATE_RANGE",
   "INVALID_STATUS", "INVALID_POLICY_TYPE", "INVALID_NUMBER"]

/-- Error-code strings that the default rule set can produce. -/
def businessCodes : List String :=
  ["PROPERTY_VALUE_TOO_LOW", "AUTO_VALUE_TOO_LOW"]

/-! ## Helper lemmas: shapes of the individual validators -/

theorem mem_validateRequiredField {e : ValidationError} {v f m : String} {n : ℕ}
    (h : e ∈ validateRequiredField v f m n) :
    e.code = "REQUIRED_FIELD" ∧ e.field = f := by
  unfold validateRequiredField at h
  split at h <;> simp_all

theorem mem_validateStatusField {e : ValidationError} {s : String} {n : ℕ}
    (h : e ∈ validateStatusField s n) :
    e.code = "INVALID_STATUS" ∧ e.field = "status" := by
  unfold validateStatusField at h
  split at h <;> simp_all

theorem mem_validatePolicyTypeField {e : ValidationError} {s : String} {n : ℕ}
    (h : e ∈ validatePolicyTypeField s n) :
    e.code = "INVALID_POLICY_TYPE" ∧ e.field = "policy_type" := by
  unfold validatePolicyTypeField at h
  split at h <;> simp_all

theorem mem_validateNumericField_iff {env : JsEnv} {e : ValidationError}
    {v : CsvValue} {f m : String} {n : ℕ} :
    e ∈ validateNumericField env v f m n ↔
      (numericValue env v = none ∨ ∃ q, numericValue env v = some q ∧ q < 0) ∧
        e = ⟨n, f, "INVALID_NUMBER", m⟩ := by
  unfold validateNumericField
  rcases h : numericValue env v with _ | q
  · simp
  · by_cases hq : q < 0 <;> simp [hq]

theorem mem_validateDateFields_code {env : JsEnv} {e : ValidationError}
    {s t : String} {n : ℕ} (h : e ∈ validateDateFields env s t n) :
    (e.code = "INVALID_DATE_FORMAT" ∨ e.code = "INVALID_DATE_RANGE") ∧
      (e.field = "start_date" ∨ e.field = "end_date") := by
  unfold validateDateFields at h
  rcases hs : env.parseDate s with _ | sv <;>
    rcases ht : env.parseDate t with _ | tv <;> rw [hs, ht] at h
  · simp at h; rcases h with h | h <;> simp [h]
  · simp at h; simp [h]
  · simp at h; simp [h]
  · by_cases hle : tv ≤ sv
    · simp [hle] at h; simp [h]
    · simp [hle] at h

theorem validateDateFields_char (env : JsEnv) (s t : String) (n : ℕ) :
    ((⟨n, "start_date", "INVALID_DATE_RANGE", "start_date must be before end_date"⟩ : ValidationError)
        ∈ validateDateFields env s t n ↔
      ∃ sv tv, env.parseDate s = some sv ∧ env.parseDate t = some tv ∧ tv ≤ sv) ∧
    ((⟨n, "start_date", "INVALID_DATE_FORMAT", "Invalid start_date format"⟩ : ValidationError)
        ∈ validateDateFields env s t n ↔ env.parseDate s = none) ∧
    ((⟨n, "end_date", "INVALID_DATE_FORMAT", "Invalid end_date format"⟩ : ValidationError)
        ∈ validateDateFields env s t n ↔ env.parseDate t = none) := by
  unfold validateDateFields
  rcases hs : env.parseDate s with _ | sv <;>
    rcases ht : env.parseDate t with _ | tv
  · simp
  · simp
  · simp
  · by_cases hle : tv ≤ sv <;> simp [hle]

theorem mem_validateRequiredField_iff {e : ValidationError} {v f m : String} {n : ℕ} :
    e ∈ validateRequiredField v f m n ↔
      trimString v = "" ∧ e = ⟨n, f, "REQUIRED_FIELD", m⟩ := by
  unfold validateRequiredField
  split <;> simp_all

theorem mem_validateStatusField_iff {e : ValidationError} {s : String} {n : ℕ} :
    e ∈ validateStatusField s n ↔
      s ∉ VALID_STATUSES ∧
        e = ⟨n, "status", "INVALID_STATUS", "status must be one of: active, expired, cancelled"⟩ := by
  unfold validateStatusField
  split <;> simp_all

theorem mem_validatePolicyTypeField_iff {e : ValidationError} {s : String} {n : ℕ} :
    e ∈ validatePolicyTypeField s n ↔
      s ∉ VALID_POLICY_TYPES ∧
        e = ⟨n, "policy_type", "INVALID_POLICY_TYPE", "policy_type must be one of: Property, Auto, Life, Health"⟩ := by
  unfold validatePolicyTypeField
  split <;> simp_all

/-! ## Claim theorems: technical validation (C6, C7) -/

/-- C6: for every row in which both `startDate` and `endDate` parse
successfully, technical validation emits an `INVALID_DATE_RANGE` error
exactly when `startDate >= endDate` (equal dates are invalid); if either
date fails to parse, no `INVALID_DATE_RANGE` error is emitted for that
row, only an `INVALID_DATE_FORMAT` error for each unparseable date. -/
theorem c6_date_range (env : JsEnv) (input : PolicyInput) (n : ℕ) :
    (∀ sv tv, env.parseDate input.start_date = some sv →
      env.parseDate input.end_date = some tv →
      ((⟨n, "start_date", "INVALID_DATE_RANGE", "start_date must be before end_date"⟩ : ValidationError)
          ∈ validateTechnical env input n ↔ tv ≤ sv)) ∧
    (env.parseDate input.start_date = none ∨ env.parseDate input.end_date = none →
      (⟨n, "start_date", "INVALID_DATE_RANGE", "start_date must be before end_date"⟩ : ValidationError)
        ∉ validateTechnical env input n) ∧
    ((⟨n, "start_date", "INVALID_DATE_FORMAT", "Invalid start_date format"⟩ : ValidationError)
        ∈ validateTechnical env input n ↔ env.parseDate input.start_date = none) ∧
    ((⟨n, "end_date", "INVALID_DATE_FORMAT", "Invalid end_date format"⟩ : ValidationError)
        ∈ validateTechnical env input n ↔ env.parseDate input.end_date = none) := by
  have hchar := validateDateFields_char env input.start_date input.end_date n
  refine ⟨fun sv tv hs ht => ?_, fun hnone => ?_, ?_, ?_⟩ <;>
    simp only [validateTechnical, List.mem_append, mem_validateRequiredField_iff,
      mem_validateStatusField_iff, mem_validatePolicyTypeField_iff,
      mem_validateNumericField_iff]
  · rw [hchar.1]
    simp [hs, ht]
  · rw [hchar.1]
    rcases hnone with h | h <;> simp [h]
  · rw [hchar.2.1]
    simp
  · rw [hchar.2.2]
    simp

/-- Witness for `c6_date_range`: on the sample row both dates parse (to
0 and 365), and no `INVALID_DATE_RANGE` error is emitted since
`0 < 365`. -/
theorem c6_date_range_witness :
    (⟨1, "start_date", "INVALID_DATE_RANGE", "start_date must be before end_date"⟩ : ValidationError)
      ∉ validateTechnical testEnv sampleRecord 1 :=
  ((c6_date_range testEnv sampleRecord 1).1 0 365 (by decide) (by decide)).not.mpr
    (by decide)

/-- C7: for every row and each of the fields `premium_usd` and
`insured_value_usd` independently, technical validation emits an
`INVALID_NUMBER` error exactly when the field value is not parseable as
a number or is negative; zero is valid (it falsifies the right-hand
side, so no error). -/
theorem c7_numeric_fields (env : JsEnv) (input : PolicyInput) (n : ℕ) :
    ((⟨n, "premium_usd", "INVALID_NUMBER", "premium_usd must be a positive number"⟩ : ValidationError)
        ∈ validateTechnical env input n ↔
      numericValue env input.premium_usd = none ∨
        ∃ q, numericValue env input.premium_usd = some q ∧ q < 0) ∧
    ((⟨n, "insured_value_usd", "INVALID_NUMBER", "insured_value_usd must be a positive number"⟩ : ValidationError)
        ∈ validateTechnical env input n ↔
      numericValue env input.insured_value_usd = none ∨
        ∃ q, numericValue env input.insured_value_usd = some q ∧ q < 0) := by
  refine ⟨?_, ?_⟩
  · have hd : (⟨n, "premium_usd", "INVALID_NUMBER", "premium_usd must be a positive number"⟩ : ValidationError)
        ∉ validateDateFields env input.start_date input.end_date n := by
      intro h
      have hc := (mem_validateDateFields_code h).1
      simp at hc
    simp [validateTechnical, List.mem_append, mem_validateRequiredField_iff,
      mem_validateStatusField_iff, mem_validatePolicyTypeField_iff,
      mem_validateNumericField_iff, hd]
  · have hd : (⟨n, "insured_value_usd", "INVALID_NUMBER", "insured_value_usd must be a positive number"⟩ : ValidationError)
        ∉ validateDateFields env input.start_date input.end_date n := by
      intro h
      have hc := (mem_validateDateFields_code h).1
      simp at hc
    simp [validateTechnical, List.mem_append, mem_validateRequiredField_iff,
      mem_validateStatusField_iff, mem_validatePolicyTypeField_iff,
      mem_validateNumericField_iff, hd]

/-! ## Claim theorems: business rules (C5, C8, C10) -/

/-- C5: with the default rule set, business validation produces a
`PROPERTY_VALUE_TOO_LOW` error on field `insured_value_usd` exactly when
the policy type is `Property` and the insured value is below 5000 (so
5000 itself passes), an `AUTO_VALUE_TOO_LOW` error exactly when the type
is `Auto` and the value is below 10000, and `Life`/`Health` policies get
no error at all. -/
theorem c5_min_value_rules (policy : Policy) (n : ℕ) :
    ((⟨n, "insured_value_usd", "PROPERTY_VALUE_TOO_LOW", "Property policies must have insured value >= $5,000"⟩ : ValidationError)
        ∈ ruleEngineValidate defaultRules policy n ↔
      policy.policy_type = PolicyType.Property ∧ policy.insured_value_usd < 5000) ∧
    ((⟨n, "insured_value_usd", "AUTO_VALUE_TOO_LOW", "Auto policies must have insured value >= $10,000"⟩ : ValidationError)
        ∈ ruleEngineValidate defaultRules policy n ↔
      policy.policy_type = PolicyType.Auto ∧ policy.insured_value_usd < 10000) ∧
    (policy.policy_type = PolicyType.Life ∨ policy.policy_type = PolicyType.Health →
      ruleEngineValidate defaultRules policy n = []) := by
  rcases policy with ⟨pn, cust, ptype, sd, ed, prem, st, iv⟩
  cases ptype
  case Property =>
    by_cases h : (5000:ℚ) ≤ iv <;>
      simp [ruleEngineValidate, defaultRules, PropertyMinInsuredValueRule,
        AutoMinInsuredValueRule, BusinessRule.execute, h, not_le, not_lt]
    exact not_le.mp h
  case Auto =>
    by_cases h : (10000:ℚ) ≤ iv <;>
      simp [ruleEngineValidate, defaultRules, PropertyMinInsuredValueRule,
        AutoMinInsuredValueRule, BusinessRule.execute, h, not_le, not_lt]
    exact not_le.mp h
  case Life =>
    simp [ruleEngineValidate, defaultRules, PropertyMinInsuredValueRule,
      AutoMinInsuredValueRule, BusinessRule.execute]
  case Health =>
    simp [ruleEngineValidate, defaultRules, PropertyMinInsuredValueRule,
      AutoMinInsuredValueRule, BusinessRule.execute]

/-- Witness for `c5_min_value_rules`: a Life policy with insured value
100 (below both minimums) receives no business error. -/
theorem c5_min_value_rules_witness :
    ruleEngineValidate defaultRules lifePolicy 1 = [] :=
  (c5_min_value_rules lifePolicy 1).2.2 (Or.inl rfl)

/-- C8: the outcome of `RuleEngine.validate` is independent of the order
in which the rules were registered — a permutation of the rule list
yields a permutation of (i.e. the same multiset of) errors. -/
theorem c8_rule_order_irrelevant (rules₁ rules₂ : List BusinessRule)
    (policy : Policy) (n : ℕ) (h : rules₁.Perm rules₂) :
    (ruleEngineValidate rules₁ policy n).Perm (ruleEngineValidate rules₂ policy n) :=
  h.filterMap _

/-- Witness for `c8_rule_order_irrelevant`: registering the two default
rules in either order yields permuted (here: equal) error lists. -/
theorem c8_rule_order_irrelevant_witness :
    (ruleEngineValidate [PropertyMinInsuredValueRule, AutoMinInsuredValueRule] existingPolicy 1).Perm
      (ruleEngineValidate [AutoMinInsuredValueRule, PropertyMinInsuredValueRule] existingPolicy 1) :=
  c8_rule_order_irrelevant _ _ existingPolicy 1
    (List.Perm.swap AutoMinInsuredValueRule PropertyMinInsuredValueRule [])

/-- C10: with the default rule set, the two rules' applicability
predicates are disjoint (Property vs Auto), so any single record
violates at most one rule, and a business-rejected row contributes
exactly one error. -/
theorem c10_at_most_one_business_error (policy : Policy) (n : ℕ) :
    (ruleEngineValidate defaultRules policy n).length ≤ 1 ∧
    (ruleEngineValidate defaultRules policy n ≠ [] →
      (ruleEngineValidate defaultRules policy n).length = 1) := by
  rcases policy with ⟨pn, cust, ptype, sd, ed, prem, st, iv⟩
  cases ptype
  case Property =>
    by_cases h : (5000:ℚ) ≤ iv <;>
      simp [ruleEngineValidate, defaultRules, PropertyMinInsuredValueRule,
        AutoMinInsuredValueRule, BusinessRule.execute, h]
  case Auto =>
    by_cases h : (10000:ℚ) ≤ iv <;>
      simp [ruleEngineValidate, defaultRules, PropertyMinInsuredValueRule,
        AutoMinInsuredValueRule, BusinessRule.execute, h]
  case Life =>
    simp [ruleEngineValidate, defaultRules, PropertyMinInsuredValueRule,
      AutoMinInsuredValueRule, BusinessRule.execute]
  case Health =>
    simp [ruleEngineValidate, defaultRules, PropertyMinInsuredValueRule,
      AutoMinInsuredValueRule, BusinessRule.execute]

/-- Witness for `c10_at_most_one_business_error`: a Property policy at
insured value 4999 is rejected with exactly one business error. -/
theorem c10_at_most_one_business_error_witness :
    (ruleEngineValidate defaultRules lowValuePolicy 1).length = 1 :=
  (c10_at_most_one_business_error lowValuePolicy 1).2 (by decide)

/-! ## Helper lemmas: pipeline structure -/

theorem processRow_of_tech_ne (env : JsEnv) (rules : List BusinessRule)
    (record : PolicyInput) (n : ℕ) (h : validateTechnical env record n ≠ []) :
    processRow env rules record n = RowOutcome.rejected (validateTechnical env record n) := by
  simp only [processRow]
  rw [if_pos]
  exact List.length_pos.mpr h

theorem processRow_rejected_cases {env : JsEnv} {rules : List BusinessRule}
    {record : PolicyInput} {n : ℕ} {es : List ValidationError}
    (h : processRow env rules record n = RowOutcome.rejected es) :
    es = validateTechnical env record n ∨
      (validateTechnical env record n = [] ∧
        ∃ p, parseToPolicy env record = some p ∧ es = ruleEngineValidate rules p n) := by
  simp only [processRow] at h
  by_cases ht : 0 < (validateTechnical env record n).length
  · rw [if_pos ht] at h
    have h2 : validateTechnical env record n = es := by injection h
    exact Or.inl h2.symm
  · rw [if_neg ht] at h
    have htnil : validateTechnical env record n = [] :=
      List.length_eq_zero.mp (Nat.eq_zero_of_not_pos ht)
    rcases hp : parseToPolicy env record with _ | p <;> rw [hp] at h <;> dsimp only at h
    · have h2 : ([] : List ValidationError) = es := by injection h
      exact Or.inl (h2.symm.trans htnil.symm)
    · by_cases hb : 0 < (ruleEngineValidate rules p n).length
      · rw [if_pos hb] at h
        have h2 : ruleEngineValidate rules p n = es := by injection h
        exact Or.inr ⟨htnil, p, rfl, h2.symm⟩
      · rw [if_neg hb] at h
        exact absurd h (fun hcontra => by injection hcontra)

theorem mem_validateTechnical_code {env : JsEnv} {input : PolicyInput} {n : ℕ}
    {e : ValidationError} (h : e ∈ validateTechnical env input n) :
    e.code ∈ technicalCodes := by
  simp only [validateTechnical, List.mem_append] at h
  rcases h with ((((((h | h) | h) | h) | h) | h) | h)
  · simp [technicalCodes, (mem_validateRequiredField h).1]
  · simp [technicalCodes, (mem_validateRequiredField h).1]
  · rcases (mem_validateDateFields_code h).1 with hc | hc <;> simp [technicalCodes, hc]
  · simp [technicalCodes, (mem_validateStatusField h).1]
  · simp [technicalCodes, (mem_validatePolicyTypeField h).1]
  · rw [mem_validateNumericField_iff] at h
    simp [technicalCodes, h.2]
  · rw [mem_validateNumericField_iff] at h
    simp [technicalCodes, h.2]

theorem execute_eq_some {r : BusinessRule} {policy : Policy} {n : ℕ}
    {e : ValidationError} (h : r.execute policy n = some e) :
    e = ⟨n, r.field, r.errorCode, r.errorMessage⟩ := by
  unfold BusinessRule.execute at h
  split_ifs at h <;>
    first
      | exact (Option.some.inj h).symm
      | exact absurd h (by simp)

theorem mem_defaultRules_code {policy : Policy} {n : ℕ} {e : ValidationError}
    (h : e ∈ ruleEngineValidate defaultRules policy n) :
    e.code ∈ businessCodes := by
  simp only [ruleEngineValidate, List.mem_filterMap] at h
  obtain ⟨r, hr, he⟩ := h
  simp only [defaultRules, List.mem_cons, List.not_mem_nil, or_false] at hr
  obtain rfl := execute_eq_some he
  rcases hr with rfl | rfl <;>
    simp [PropertyMinInsuredValueRule, AutoMinInsuredValueRule, businessCodes]

theorem parseToPolicy_isSome_of_valid {env : JsEnv} {input : PolicyInput} {n : ℕ}
    (h : validateTechnical env input n = []) : (parseToPolicy env input).isSome := by
  simp only [validateTechnical, List.append_eq_nil] at h
  obtain ⟨⟨⟨⟨⟨⟨h1, h2⟩, h3⟩, h4⟩, h5⟩, h6⟩, h7⟩ := h
  unfold validateDateFields at h3
  unfold validateStatusField at h4
  unfold validatePolicyTypeField at h5
  unfold validateNumericField at h6 h7
  obtain ⟨sd, hsd⟩ : ∃ v, env.parseDate input.start_date = some v :=
    Option.isSome_iff_exists.mp (Option.ne_none_iff_isSome.mp
      (fun hx => by rw [hx] at h3; simp at h3))
  obtain ⟨ed, hed⟩ : ∃ v, env.parseDate input.end_date = some v :=
    Option.isSome_iff_exists.mp (Option.ne_none_iff_isSome.mp
      (fun hx => by rw [hx] at h3; simp at h3))
  obtain ⟨q6, hm6⟩ : ∃ q, numericValue env input.premium_usd = some q :=
    Option.isSome_iff_exists.mp (Option.ne_none_iff_isSome.mp
      (fun hx => by rw [hx] at h6; simp at h6))
  obtain ⟨q7, hm7⟩ : ∃ q, numericValue env input.insured_value_usd = some q :=
    Option.isSome_iff_exists.mp (Option.ne_none_iff_isSome.mp
      (fun hx => by rw [hx] at h7; simp at h7))
  by_cases hst : input.status ∈ VALID_STATUSES
  case neg => rw [if_neg hst] at h4; simp at h4
  by_cases hpt : input.policy_type ∈ VALID_POLICY_TYPES
  case neg => rw [if_neg hpt] at h5; simp at h5
  have hstat : ∃ st, toPolicyStatus input.status = some st := by
    simp only [VALID_STATUSES, List.mem_cons, List.not_mem_nil, or_false] at hst
    rcases hst with hst | hst | hst <;> simp [toPolicyStatus, hst]
  have htype : ∃ pt, toPolicyType input.policy_type = some pt := by
    simp only [VALID_POLICY_TYPES, List.mem_cons, List.not_mem_nil, or_false] at hpt
    rcases hpt with hpt | hpt | hpt | hpt <;> simp [toPolicyType, hpt]
  obtain ⟨st, hstat⟩ := hstat
  obtain ⟨pt, htype⟩ := htype
  simp [parseToPolicy, hsd, hed, hm6, hm7, hstat, htype]

theorem persistLoop_spec {DB : Type} (ad : UpsertAdapter DB) :
    ∀ (vp : List (Policy × ℕ)) (db : DB),
      (persistLoop ad vp db).updated_policies =
        (persistTrace ad vp db).filterMap
          (fun pw => if pw.2 then some pw.1.policy_number else none) ∧
      (persistLoop ad vp db).updated_policies.length = (persistLoop ad vp db).updated ∧
      (persistLoop ad vp db).inserted + (persistLoop ad vp db).updated = vp.length
  | [], db => by simp [persistLoop, persistTrace]
  | (p, k) :: rest, db => by
      obtain ⟨ih1, ih2, ih3⟩ := persistLoop_spec ad rest (ad.insertOrUpdate db p).2
      rw [ih1] at ih2
      by_cases hw : (ad.insertOrUpdate db p).1 = true <;>
        simp [persistLoop, persistTrace, hw, ih1] <;> omega

theorem processRowsFrom_valid_length_le (env : JsEnv) (rules : List BusinessRule) :
    ∀ (records : List PolicyInput) (i : ℕ),
      (processRowsFrom env rules i records).2.length ≤ records.length
  | [], _ => by simp [processRowsFrom]
  | record :: rest, i => by
      have ih := processRowsFrom_valid_length_le env rules rest (i + 1)
      cases hpr : processRow env rules record (i + 1) <;>
        simp [processRowsFrom, hpr] <;> omega

/-! ## Claim theorems: orchestrator (C3, C4, C9) -/

/-- C3: for every completed batch, `insertedCount + updatedCount +
rejectedCount = totalRows`, `rejectedCount` is non-negative, and the
three-way outcome (HTTP 200 full success / 422 full rejection / 207
partial) is a pure function of these counts: 200 iff no rejections
(including the empty file), 422 iff everything rejected and the file was
non-empty, 207 otherwise. -/
theorem c3_classification (env : JsEnv) {DB : Type} (ad : UpsertAdapter DB)
    (rules : List BusinessRule) (records : List PolicyInput) (db : DB)
    (duration : ℤ) :
    (((upload env ad rules records db duration).1.inserted_count : ℤ) +
        (upload env ad rules records db duration).1.updated_count +
        (upload env ad rules records db duration).1.rejected_count = records.length) ∧
    (0 ≤ (upload env ad rules records db duration).1.rejected_count) ∧
    ((upload env ad rules records db duration).1.statusCode = 200 ↔
      (upload env ad rules records db duration).1.rejected_count = 0) ∧
    ((upload env ad rules records db duration).1.statusCode = 422 ↔
      (upload env ad rules records db duration).1.rejected_count = records.length ∧
        0 < records.length) ∧
    ((upload env ad rules records db duration).1.statusCode = 207 ↔
      (upload env ad rules records db duration).1.rejected_count ≠ 0 ∧
        (upload env ad rules records db duration).1.rejected_count ≠ (records.length : ℤ)) ∧
    (records = [] → (upload env ad rules records db duration).1.statusCode = 200 ∧
      (upload env ad rules records db duration).1.rejected_count = 0) := by
  have hcnt := (persistLoop_spec ad (processRows env rules records).2 db).2.2
  have hlen : (processRows env rules records).2.length ≤ records.length :=
    processRowsFrom_valid_length_le env rules records 0
  simp only [upload]
  set a := (persistLoop ad (processRows env rules records).2 db).inserted with ha
  set b := (persistLoop ad (processRows env rules records).2 db).updated with hb
  have hab : a + b ≤ records.length := by omega
  refine ⟨by push_cast; ring, by omega, ?_, ?_, ?_, ?_⟩
  · split_ifs with h0 hT
    · simp [h0]
    · simp [h0]
    · simp [h0]
  · split_ifs with h0 hT
    · refine iff_of_false (by decide) ?_
      rintro ⟨hrl, hpos⟩
      omega
    · exact iff_of_true rfl ⟨hT, by omega⟩
    · refine iff_of_false (by decide) ?_
      rintro ⟨hrl, hpos⟩
      exact hT hrl
  · split_ifs with h0 hT
    · exact iff_of_false (by decide) (fun hc => hc.1 h0)
    · exact iff_of_false (by decide) (fun hc => hc.2 hT)
    · exact iff_of_true rfl ⟨h0, hT⟩
  · rintro rfl
    have h0 : (processRows env rules ([] : List PolicyInput)).2.length = 0 := by
      simp [processRows, processRowsFrom]
    have ha0 : a = 0 := by omega
    have hb0 : b = 0 := by omega
    simp [ha0, hb0]

/-- Witness for `c3_classification`: the empty batch is classified as
(vacuous) full success, HTTP 200 with zero rejected. -/
theorem c3_classification_witness :
    (upload testEnv memAdapter defaultRules [] [] 0).1.statusCode = 200 ∧
      (upload testEnv memAdapter defaultRules [] [] 0).1.rejected_count = 0 :=
  (c3_classification testEnv memAdapter defaultRules [] [] 0).2.2.2.2.2 rfl

/-- C4: a row with technical errors is rejected with exactly those
errors, never reaching business validation or persistence, and any
rejected row's error list is either wholly technical or wholly business
(with the default rules the two code sets are disjoint), never a
mixture. -/
theorem c4_error_exclusivity (env : JsEnv) (record : PolicyInput) (n : ℕ) :
    (∀ rules, validateTechnical env record n ≠ [] →
      processRow env rules record n = RowOutcome.rejected (validateTechnical env record n)) ∧
    (∀ rules es, processRow env rules record n = RowOutcome.rejected es →
      es = validateTechnical env record n ∨
        (validateTechnical env record n = [] ∧
          ∃ p, parseToPolicy env record = some p ∧ es = ruleEngineValidate rules p n)) ∧
    (∀ es, processRow env defaultRules record n = RowOutcome.rejected es →
      (∀ e ∈ es, e.code ∈ technicalCodes ∧ e.code ∉ businessCodes) ∨
        (∀ e ∈ es, e.code ∈ businessCodes ∧ e.code ∉ technicalCodes)) := by
  have hdisj : ∀ c ∈ technicalCodes, c ∉ businessCodes := by decide
  have hdisj2 : ∀ c ∈ businessCodes, c ∉ technicalCodes := by decide
  refine ⟨fun rules h => processRow_of_tech_ne env rules record n h,
    fun rules es h => processRow_rejected_cases h, fun es h => ?_⟩
  rcases processRow_rejected_cases h with rfl | ⟨-, p, -, rfl⟩
  · exact Or.inl fun e he =>
      ⟨mem_validateTechnical_code he, hdisj _ (mem_validateTechnical_code he)⟩
  · exact Or.inr fun e he =>
      ⟨mem_defaultRules_code he, hdisj2 _ (mem_defaultRules_code he)⟩

/-- Witness for `c4_error_exclusivity`: the two-error row is rejected
with exactly its two technical errors. -/
theorem c4_error_exclusivity_witness :
    processRow testEnv defaultRules twoErrorRecord 1 =
      RowOutcome.rejected (validateTechnical testEnv twoErrorRecord 1) :=
  (c4_error_exclusivity testEnv twoErrorRecord 1).1 defaultRules (by decide)

/-- C9: in every non-fatal batch response, `updated_policies` has length
exactly `updated_count`, and it consists precisely of the policy numbers
of the valid rows whose upsert reported `was_updated = true`, in
persistence order. -/
theorem c9_updated_policies (env : JsEnv) {DB : Type} (ad : UpsertAdapter DB)
    (rules : List BusinessRule) (records : List PolicyInput) (db : DB)
    (duration : ℤ) :
    (upload env ad rules records db duration).1.updated_policies.length =
      (upload env ad rules records db duration).1.updated_count ∧
    (upload env ad rules records db duration).1.updated_policies =
      (persistTrace ad (processRows env rules records).2 db).filterMap
        (fun pw => if pw.2 then some pw.1.policy_number else none) := by
  have h := persistLoop_spec ad (processRows env rules records).2 db
  exact ⟨by simpa [upload] using h.2.1, by simpa [upload] using h.1⟩

/-! ## Claim theorems: operation record finalization (C1, C2) -/

/-- C1: contrary to the claim, the finalized operation record does not
store `rowsUpdated = updatedCount`: `OperationService.updateOperation`
has no branch for `rows_updated`, so the value the controller passes is
dropped for every update payload, and on a concrete batch whose single
valid row upserts an existing policy (`updated_count = 1`) the finalized
record still carries the column default `0`. -/
theorem c1_rows_updated_dropped :
    (∀ (row : OperationRow) (u : OperationUpdate),
      (updateOperation row u).rows_updated = row.rows_updated) ∧
    (upload testEnv memAdapter defaultRules [sampleRecord] [existingPolicy] 5).1.updated_count = 1 ∧
    (upload testEnv memAdapter defaultRules [sampleRecord] [existingPolicy] 5).2.1.status = "COMPLETED" ∧
    (upload testEnv memAdapter defaultRules [sampleRecord] [existingPolicy] 5).2.1.rows_updated = some 0 :=
  ⟨fun _ _ => rfl, by decide, by decide, by decide⟩

/-- C2 counterexample: on a one-row batch whose row carries two technical
errors, the claim "the finalized record's `rowsRejected` equals
`totalRows - insertedCount - updatedCount`" fails: the record stores 2
(the number of validation errors) while the formula yields 1. -/
theorem c2_rows_rejected_counterexample :
    (upload testEnv memAdapter defaultRules [twoErrorRecord] [] 5).2.1.rows_rejected = some 2 ∧
    (([twoErrorRecord].length : ℤ) -
        (upload testEnv memAdapter defaultRules [twoErrorRecord] [] 5).1.inserted_count -
        (upload testEnv memAdapter defaultRules [twoErrorRecord] [] 5).1.updated_count) = 1 ∧
    (upload testEnv memAdapter defaultRules [twoErrorRecord] [] 5).2.1.rows_rejected ≠
      some (([twoErrorRecord].length : ℤ) -
        (upload testEnv memAdapter defaultRules [twoErrorRecord] [] 5).1.inserted_count -
        (upload testEnv memAdapter defaultRules [twoErrorRecord] [] 5).1.updated_count) :=
  ⟨by decide, by decide, by decide⟩

/-- C2 (amended): the `rows_rejected` value written into the finalized
operation record equals the total number of validation errors recorded
for the batch (`allErrors.length`, the length of the response's error
list), which equals the number of rejected rows only when every rejected
row contributes exactly one error. -/
theorem c2_rows_rejected_is_error_count (env : JsEnv) {DB : Type}
    (ad : UpsertAdapter DB) (rules : List BusinessRule)
    (records : List PolicyInput) (db : DB) (duration : ℤ) :
    (upload env ad rules records db duration).2.1.rows_rejected =
      some ((upload env ad rules records db duration).1.errors.length : ℤ) := rfl

end PolicyUpload
